import Mathlib

/-!
Verification of the dependency-to-artifact resolver in `src/main.rs` of
atcoder-rustc-dep-option-generator.

The Rust code is embedded shallowly:

* `Fallible<T>` results, together with the `panic!` / `unreachable!` aborts,
  become `RunResult`: `ok` models `Ok`, `error` models `Err`, and `panic`
  models a process abort.
* The build-output directory (`deps_path`) becomes `DepsDir`: a flag for
  `deps_path.exists()`, the list of directory entries in enumeration order
  (each with its file name, its `is_dir` flag and, for auxiliary files, its
  text content), and the list of file names that exist in the directory
  (queried by `Path::exists` for the `.so` / `.rlib` artifact probes).
  Paths are modelled by their file name inside the directory, since every
  path the resolver manipulates lives in that single directory.
* Rust string operations are modelled on `List Char` / `String`:
  `str::contains` is `strContains`, byte slicing `&s[0..n]` is `byteSlice`
  (panicking exactly when the byte range is out of bounds or not on a
  character boundary), and `Path::with_extension` on a file name is
  `withExtension`.
-/

/-- Result of running a fallible Rust computation: normal return (`Ok`),
returned error (`Err`), or process abort (`panic!` / `unreachable!`). -/
inductive RunResult (α : Type) where
  | ok (a : α)
  | error (msg : String)
  | panic (msg : String)
deriving DecidableEq

/-- `cargo::core::GitReference`: the three kinds of git source reference. -/
inductive GitReference where
  | Tag (s : String)
  | Branch (s : String)
  | Rev (s : String)
deriving DecidableEq

/-- `enum Locator` from src/main.rs (lines 74-83). -/
inductive Locator where
  | Version (package_name version : String)
  | Git (package_name revision : String)
deriving DecidableEq

/-- One entry of the deps directory: its file name, whether it is a
subdirectory, and its text content (relevant for `.d` auxiliary files). -/
structure DirEntry where
  name : String
  isDir : Bool
  content : String
deriving DecidableEq

/-- The build-output directory: whether it exists, its entries in
enumeration order, and the names of the files that exist in it (what
`Path::exists` sees for the artifact probes). -/
structure DepsDir where
  dirExists : Bool
  entries : List DirEntry
  files : List String
deriving DecidableEq

/-- Does the character list `needle` occur at the start of `l`?
(Helper for substring containment.) -/
def seqStartsWith : List Char → List Char → Bool
  | [], _ => true
  | _ :: _, [] => false
  | a :: as, b :: bs => a == b && seqStartsWith as bs

/-- Does the character list `needle` occur contiguously anywhere in the
second list? -/
def seqContains (needle : List Char) : List Char → Bool
  | [] => needle.isEmpty
  | c :: rest => seqStartsWith needle (c :: rest) || seqContains needle rest

/-- Model of Rust `str::contains` with a string pattern: substring test. -/
def strContains (haystack pattern : String) : Bool :=
  seqContains pattern.toList haystack.toList

/-- Model of Rust `str::starts_with` with a string pattern. -/
def strStartsWith (s pattern : String) : Bool :=
  seqStartsWith pattern.toList s.toList

/-- Model of Rust `str::ends_with` with a string pattern. -/
def strEndsWith (s pattern : String) : Bool :=
  seqStartsWith pattern.toList.reverse s.toList.reverse

/-- Model of Rust `str::trim`: drop leading and trailing whitespace
characters (the inputs of interest are ASCII, where Rust's Unicode
whitespace and `Char.isWhitespace` agree). -/
def strTrim (s : String) : String :=
  String.mk (((s.toList.dropWhile Char.isWhitespace).reverse.dropWhile
    Char.isWhitespace).reverse)

/-- Model of the Rust byte slice `&s[0..n]` on a UTF-8 string, at the level
of characters: take characters until exactly `n` bytes are consumed.
Panics (as Rust does) when the string is shorter than `n` bytes or when
byte index `n` is not a character boundary. -/
def takeBytes : Nat → List Char → RunResult (List Char)
  | 0, _ => .ok []
  | _ + 1, [] => .panic "byte index out of bounds"
  | n + 1, c :: cs =>
    if c.utf8Size ≤ n + 1 then
      match takeBytes (n + 1 - c.utf8Size) cs with
      | .ok rest => .ok (c :: rest)
      | .error e => .error e
      | .panic e => .panic e
    else .panic "byte index is not a char boundary"

/-- Model of `&s[0..n]` as a `String`. -/
def byteSlice (n : Nat) (s : String) : RunResult String :=
  match takeBytes n s.toList with
  | .ok cs => .ok (String.mk cs)
  | .error e => .error e
  | .panic e => .panic e

/-- Model of Rust `Path::with_extension` restricted to a file name:
the file stem (the part before the last dot, except that a lone leading
dot does not start an extension) with `"." ++ ext` appended. -/
def fileStem (name : String) : String :=
  match (name.toList.reverse).dropWhile (fun c => c != '.') with
  | [] => name
  | _ :: before => if before.isEmpty then name else String.mk before.reverse

/-- `stem.with_extension(ext)` on a file name, for a nonempty `ext`. -/
def withExtension (name ext : String) : String :=
  fileStem name ++ "." ++ ext

/-- `Locator::package_name` (src/main.rs lines 86-91). -/
def Locator.package_name : Locator → String
  | .Version package_name _ => package_name
  | .Git package_name _ => package_name

/-- `Locator::crate_name` (src/main.rs lines 93-95): the package name with
every `-` replaced by `_` (`.replace("-", "_")`; with a one-character
pattern and replacement this is a character map). -/
def Locator.crate_name (l : Locator) : String :=
  String.mk (l.package_name.toList.map (fun c => if c == '-' then '_' else c))

/-- `Locator::search_patterns` (src/main.rs lines 97-123). For a version
locator, the single pattern `/{package_name}-{version}/`; for a git
locator, the two patterns `/{package_name}` and `/{revision[0..7]}/`,
where the byte slice `&revision[0..7]` can panic. -/
def Locator.search_patterns : Locator → RunResult (List String)
  | .Version package_name version =>
    .ok ["/" ++ package_name ++ "-" ++ version ++ "/"]
  | .Git package_name revision =>
    match byteSlice 7 revision with
    | .ok rev7 => .ok ["/" ++ package_name, "/" ++ rev7 ++ "/"]
    | .error e => .error e
    | .panic e => .panic e

/-- `Locator::matches` (src/main.rs lines 125-129): true iff every search
pattern is a substring of the content. -/
def Locator.matches (l : Locator) (content : String) : RunResult Bool :=
  match l.search_patterns with
  | .ok pats => .ok (pats.all (fun pat => strContains content pat))
  | .error e => .error e
  | .panic e => .panic e

/-- The loop body of `Locator::find_library_path` (src/main.rs lines
133-166), folded over the remaining directory entries in enumeration
order. `files` is the set of file names existing in the directory. -/
def Locator.find_library_path_go (l : Locator) (files : List String) :
    List DirEntry → RunResult String
  | [] => .error ("failed to find appropriate path for " ++ l.package_name)
  | e :: rest =>
    if e.isDir then Locator.find_library_path_go l files rest
    else if !(strStartsWith e.name (l.crate_name ++ "-") && strEndsWith e.name ".d") then
      Locator.find_library_path_go l files rest
    else
      match l.matches e.content with
      | .ok true =>
        let stem := "lib" ++ e.name
        let so := withExtension stem "so"
        if files.contains so then .ok so
        else
          let rlib := withExtension stem "rlib"
          if files.contains rlib then .ok rlib
          else .panic "The compiled crate must be either .rlib or .so."
      | .ok false => Locator.find_library_path_go l files rest
      | .error m => .error m
      | .panic m => .panic m

/-- `Locator::find_library_path` (src/main.rs lines 131-172). `read_dir`
on a missing directory is an error; otherwise scan the entries. -/
def Locator.find_library_path (l : Locator) (d : DepsDir) : RunResult String :=
  if !d.dirExists then .error "No such file or directory"
  else Locator.find_library_path_go l d.files d.entries

/-- The fields of `cargo::core::Dependency` consumed by `Dependency::parse`:
the package name, the optional git reference of the source id, and the
version requirement rendered as a string. -/
structure CargoDependency where
  package_name : String
  git_reference : Option GitReference
  version_req : String
deriving DecidableEq

/-- `struct Dependency` from src/main.rs (lines 12-15). -/
structure Dependency where
  crate_name : String
  library_path : String
deriving DecidableEq

/-- `Dependency::parse_git` (src/main.rs lines 18-27): only a revision
reference is accepted; tag and branch references panic. -/
def Dependency.parse_git (package_name : String) : GitReference → RunResult Locator
  | .Rev revision => .ok (.Git package_name revision)
  | .Tag _ => .panic "Tagged git source is not supported."
  | .Branch _ => .panic "Branch git source is not supported."

/-- `Dependency::parse_normal` (src/main.rs lines 29-42): the requirement
must start with `=`; the rest (the byte slice `&version_req[1..]`, i.e.
everything after the one-byte `=`), trimmed, is the exact version. -/
def Dependency.parse_normal (package_name version_req : String) : RunResult Locator :=
  if !strStartsWith version_req "=" then
    .error "use exact match version requirement: `= *.*.*`"
  else
    .ok (.Version package_name (strTrim (String.mk (version_req.toList.drop 1))))

/-- `Dependency::parse` (src/main.rs lines 44-63): check that the deps
directory exists, build the locator from the git reference or the version
requirement, then resolve the library path. -/
def Dependency.parse (d : DepsDir) (dep : CargoDependency) : RunResult Dependency :=
  if !d.dirExists then .error "dependencies path is not exist."
  else
    match (match dep.git_reference with
           | some g => Dependency.parse_git dep.package_name g
           | none => Dependency.parse_normal dep.package_name dep.version_req) with
    | .ok locator =>
      match locator.find_library_path d with
      | .ok p => .ok ⟨locator.crate_name, p⟩
      | .error m => .error m
      | .panic m => .panic m
    | .error m => .error m
    | .panic m => .panic m

/-- Claim C2: for every exact-version identity, `search_patterns` is the
single pattern `/{logical_name}-{version}/`, `matches contents` is true iff
that pattern is a substring of the contents, and version `1.2` does not
match contents whose only name-version segment is `/foo-1.22/`. -/
theorem C2_version_pattern_matching (package_name version contents : String) :
    Locator.search_patterns (.Version package_name version)
      = .ok ["/" ++ package_name ++ "-" ++ version ++ "/"] ∧
    Locator.matches (.Version package_name version) contents
      = .ok (strContains contents ("/" ++ package_name ++ "-" ++ version ++ "/")) ∧
    Locator.matches (.Version "foo" "1.2") "/registry/src/foo-1.22/lib.rs"
      = .ok false := by
  refine ⟨rfl, ?_, by decide⟩
  simp [Locator.matches, Locator.search_patterns]

/-- Claim C3: for every revision identity whose first 7 bytes slice to
`rev7`, `search_patterns` is the two patterns `/{logical_name}` and
`/{rev7}/`, and `matches contents` is true iff both are substrings; with
revision `abcdef1234567890`, contents with both `/mycrate` and `/abcdef1/`
match, and contents with only one of the two do not. -/
theorem C3_git_pattern_matching (package_name revision rev7 contents : String)
    (h : byteSlice 7 revision = .ok rev7) :
    Locator.search_patterns (.Git package_name revision)
      = .ok ["/" ++ package_name, "/" ++ rev7 ++ "/"] ∧
    Locator.matches (.Git package_name revision) contents
      = .ok (strContains contents ("/" ++ package_name) &&
             strContains contents ("/" ++ rev7 ++ "/")) ∧
    Locator.matches (.Git "mycrate" "abcdef1234567890") "/home/mycrate /abcdef1/ x"
      = .ok true ∧
    Locator.matches (.Git "mycrate" "abcdef1234567890") "/home/mycrate only"
      = .ok false ∧
    Locator.matches (.Git "mycrate" "abcdef1234567890") "/abcdef1/ only"
      = .ok false := by
  refine ⟨?_, ?_, by decide, by decide, by decide⟩
  · simp [Locator.search_patterns, h]
  · simp [Locator.matches, Locator.search_patterns, h]

/-- Witness for C3 at revision `abcdef1234567890`, whose 7-byte slice is
`abcdef1`. -/
theorem C3_git_pattern_matching_witness :
    Locator.search_patterns (.Git "mycrate" "abcdef1234567890")
      = .ok ["/" ++ "mycrate", "/" ++ "abcdef1" ++ "/"] :=
  (C3_git_pattern_matching "mycrate" "abcdef1234567890" "abcdef1" "" (by decide)).1

/-- Claim C4: constructing an exact-version identity succeeds iff the
version requirement starts with `=` (otherwise it is an invalid-identity
error), and on success the version is the remainder after `=`, trimmed;
in particular `= 1.2.3` yields `1.2.3`. -/
theorem C4_parse_normal_exact_requirement (package_name version_req : String) :
    ((∃ v, Dependency.parse_normal package_name version_req = .ok (.Version package_name v))
        ↔ strStartsWith version_req "=" = true) ∧
    (strStartsWith version_req "=" = true →
       Dependency.parse_normal package_name version_req
         = .ok (.Version package_name (strTrim (String.mk (version_req.toList.drop 1))))) ∧
    (strStartsWith version_req "=" = false →
       Dependency.parse_normal package_name version_req
         = .error "use exact match version requirement: `= *.*.*`") ∧
    Dependency.parse_normal package_name "= 1.2.3"
      = .ok (.Version package_name "1.2.3") := by
  refine ⟨?_, ?_, ?_, ?_⟩
  · constructor
    · rintro ⟨v, hv⟩
      by_contra hne
      rw [Bool.not_eq_true] at hne
      simp [Dependency.parse_normal, hne] at hv
    · intro hs
      refine ⟨strTrim (String.mk (version_req.toList.drop 1)), ?_⟩
      simp [Dependency.parse_normal, hs]
  · intro hs; simp [Dependency.parse_normal, hs]
  · intro hs; simp [Dependency.parse_normal, hs]
  · have hs : strStartsWith "= 1.2.3" "=" = true := by decide
    have ht : strTrim " 1.2.3" = "1.2.3" := by decide
    simp [Dependency.parse_normal, hs, ht]

/-- Witness for C4: a requirement not starting with `=` is rejected. -/
theorem C4_parse_normal_exact_requirement_witness :
    Dependency.parse_normal "foo" "1.2.3"
      = .error "use exact match version requirement: `= *.*.*`" :=
  (C4_parse_normal_exact_requirement "foo" "1.2.3").2.2.1 (by decide)

/-- Claim C9: identity construction from a git reference accepts only a
revision reference; a tag or branch reference is a panic (an abort), never
a normally returned error. -/
theorem C9_git_reference_kinds (package_name s : String) :
    Dependency.parse_git package_name (.Rev s) = .ok (.Git package_name s) ∧
    Dependency.parse_git package_name (.Tag s)
      = .panic "Tagged git source is not supported." ∧
    Dependency.parse_git package_name (.Branch s)
      = .panic "Branch git source is not supported." ∧
    (∀ msg, Dependency.parse_git package_name (.Tag s) ≠ .error msg) ∧
    (∀ msg, Dependency.parse_git package_name (.Branch s) ≠ .error msg) := by
  refine ⟨rfl, rfl, rfl, fun msg h => ?_, fun msg h => ?_⟩ <;>
    simp [Dependency.parse_git] at h

/-- The auxiliary file `foo-aaa.d`, whose content records version 1.0.0. -/
def entryAaa : DirEntry := ⟨"foo-aaa.d", false, "/registry/src/foo-1.0.0/lib.rs"⟩

/-- The auxiliary file `foo-bbb.d`, whose content records version 2.0.0. -/
def entryBbb : DirEntry := ⟨"foo-bbb.d", false, "/registry/src/foo-2.0.0/lib.rs"⟩

/-- Claim C1: with candidates `foo-aaa.d` (content matching version 1.0.0)
and `foo-bbb.d` (content matching version 2.0.0) in either enumeration
order, resolving {name: foo, version: 2.0.0} only ever returns an artifact
derived from `foo-bbb.d`, and does return it when the `.rlib` artifact for
`foo-bbb` exists. -/
theorem C1_content_disambiguation (files : List String) (entries : List DirEntry)
    (h : entries = [entryAaa, entryBbb] ∨ entries = [entryBbb, entryAaa]) :
    (∀ p, Locator.find_library_path (.Version "foo" "2.0.0") ⟨true, entries, files⟩ = .ok p →
       p = "libfoo-bbb.so" ∨ p = "libfoo-bbb.rlib") ∧
    (files.contains "libfoo-bbb.so" = false → files.contains "libfoo-bbb.rlib" = true →
       Locator.find_library_path (.Version "foo" "2.0.0") ⟨true, entries, files⟩
         = .ok "libfoo-bbb.rlib") := by
  have h2 : (strStartsWith entryBbb.name ((Locator.Version "foo" "2.0.0").crate_name ++ "-")
      && strEndsWith entryBbb.name ".d") = true := by decide
  have h3 : Locator.matches (Locator.Version "foo" "2.0.0") entryBbb.content = .ok true := by
    decide
  have h4 : withExtension ("lib" ++ entryBbb.name) "so" = "libfoo-bbb.so" := by decide
  have h5 : withExtension ("lib" ++ entryBbb.name) "rlib" = "libfoo-bbb.rlib" := by decide
  have h6 : Locator.matches (Locator.Version "foo" "2.0.0") entryAaa.content = .ok false := by
    decide
  have h7 : entryAaa.isDir = false := rfl
  have h8 : entryBbb.isDir = false := rfl
  have hgo : ∀ (rest : List DirEntry),
      Locator.find_library_path_go (.Version "foo" "2.0.0") files (entryBbb :: rest)
        = if files.contains "libfoo-bbb.so" then .ok "libfoo-bbb.so"
          else if files.contains "libfoo-bbb.rlib" then .ok "libfoo-bbb.rlib"
          else .panic "The compiled crate must be either .rlib or .so." := by
    intro rest
    rw [Locator.find_library_path_go]
    simp only [h2, h3, h4, h5, h8, Bool.not_true, Bool.false_eq_true, if_false]
  have hfind : Locator.find_library_path (.Version "foo" "2.0.0") ⟨true, entries, files⟩
      = if files.contains "libfoo-bbb.so" then .ok "libfoo-bbb.so"
        else if files.contains "libfoo-bbb.rlib" then .ok "libfoo-bbb.rlib"
        else .panic "The compiled crate must be either .rlib or .so." := by
    rcases h with rfl | rfl
    · rw [Locator.find_library_path]
      simp only [Bool.not_true, Bool.false_eq_true, if_false]
      rw [Locator.find_library_path_go]
      simp only [h6, h7, hgo, Bool.false_eq_true, if_false, ite_self]
    · rw [Locator.find_library_path]
      simp only [Bool.not_true, Bool.false_eq_true, if_false]
      exact hgo [entryAaa]
  constructor
  · intro p hp
    rw [hfind] at hp
    by_cases hso : files.contains "libfoo-bbb.so" = true
    · rw [if_pos hso] at hp
      exact Or.inl (RunResult.ok.inj hp).symm
    · rw [if_neg hso] at hp
      by_cases hrl : files.contains "libfoo-bbb.rlib" = true
      · rw [if_pos hrl] at hp
        exact Or.inr (RunResult.ok.inj hp).symm
      · rw [if_neg hrl] at hp
        cases hp
  · intro hso hrl
    rw [hfind, hso, hrl]
    simp

/-- Witness for C1: both orders, with only the `.rlib` artifact present. -/
theorem C1_content_disambiguation_witness :
    Locator.find_library_path (.Version "foo" "2.0.0")
        ⟨true, [entryAaa, entryBbb], ["libfoo-bbb.rlib"]⟩ = .ok "libfoo-bbb.rlib" :=
  (C1_content_disambiguation ["libfoo-bbb.rlib"] [entryAaa, entryBbb] (Or.inl rfl)).2
    (by decide) (by decide)

/-- Claim C5: on the first matching candidate the resolver builds the
artifact stem by prefixing `lib` to the candidate's file name and probes
the replacement extensions in the fixed order `.so` before `.rlib`: if the
`.so` artifact exists it is returned (even when the `.rlib` also exists),
and if only the `.rlib` exists then the `.rlib` is returned. -/
theorem C5_extension_priority (l : Locator) (nm content : String) (files : List String)
    (hpre : strStartsWith nm (l.crate_name ++ "-") = true)
    (hsuf : strEndsWith nm ".d" = true)
    (hm : l.matches content = .ok true) :
    (files.contains (withExtension ("lib" ++ nm) "so") = true →
       Locator.find_library_path l ⟨true, [⟨nm, false, content⟩], files⟩
         = .ok (withExtension ("lib" ++ nm) "so")) ∧
    (files.contains (withExtension ("lib" ++ nm) "so") = false →
     files.contains (withExtension ("lib" ++ nm) "rlib") = true →
       Locator.find_library_path l ⟨true, [⟨nm, false, content⟩], files⟩
         = .ok (withExtension ("lib" ++ nm) "rlib")) := by
  constructor
  · intro hso
    rw [Locator.find_library_path]
    simp only [Bool.not_true, Bool.false_eq_true, if_false]
    rw [Locator.find_library_path_go]
    simp only [hpre, hsuf, hm, hso, Bool.and_self, Bool.not_true, Bool.false_eq_true,
      if_false, if_true]
  · intro hso hrl
    rw [Locator.find_library_path]
    simp only [Bool.not_true, Bool.false_eq_true, if_false]
    rw [Locator.find_library_path_go]
    simp only [hpre, hsuf, hm, hso, hrl, Bool.and_self, Bool.not_true, Bool.false_eq_true,
      if_false, if_true]

/-- Witness for C5: with both artifacts present the `.so` wins; with only
the `.rlib` present it is returned. -/
theorem C5_extension_priority_witness :
    Locator.find_library_path (.Version "foo" "1.0.0")
        ⟨true, [⟨"foo-abc.d", false, "/src/foo-1.0.0/lib.rs"⟩],
          ["libfoo-abc.so", "libfoo-abc.rlib"]⟩
      = .ok (withExtension ("lib" ++ "foo-abc.d") "so") :=
  (C5_extension_priority (.Version "foo" "1.0.0") "foo-abc.d" "/src/foo-1.0.0/lib.rs"
      ["libfoo-abc.so", "libfoo-abc.rlib"] (by decide) (by decide) (by decide)).1 (by decide)

/-- Claim C6: when the output directory does not exist, `Dependency::parse`
fails with the missing-directory error for every dependency, independently
of any directory entries or file contents (nothing is read), and the only
error it can report in that situation is the missing-directory one — in
particular never the no-artifact resolution failure, whose message is
strictly longer than the missing-directory message. -/
theorem C6_missing_directory (dep : CargoDependency) (entries : List DirEntry)
    (files : List String) :
    Dependency.parse ⟨false, entries, files⟩ dep = .error "dependencies path is not exist." ∧
    (∀ msg, Dependency.parse ⟨false, entries, files⟩ dep = .error msg →
       msg = "dependencies path is not exist.") ∧
    "dependencies path is not exist."
      ≠ "failed to find appropriate path for " ++ dep.package_name := by
  refine ⟨rfl, ?_, ?_⟩
  · intro msg hmsg
    exact (RunResult.error.inj hmsg).symm
  · intro h
    have hlen := congrArg String.length h
    rw [String.length_append] at hlen
    have h1 : ("dependencies path is not exist." : String).length = 31 := by decide
    have h2 : ("failed to find appropriate path for " : String).length = 36 := by decide
    rw [h1, h2] at hlen
    omega

/-- The scan of `find_library_path` returns the no-artifact error when
every entry is a subdirectory, fails the name pre-filter, or has
non-matching content. -/
theorem find_library_path_go_exhausted (l : Locator) (files : List String) :
    ∀ entries : List DirEntry,
      (∀ e ∈ entries, e.isDir = true ∨
        (strStartsWith e.name (l.crate_name ++ "-") && strEndsWith e.name ".d") = false ∨
        l.matches e.content = .ok false) →
      Locator.find_library_path_go l files entries
        = .error ("failed to find appropriate path for " ++ l.package_name) := by
  intro entries
  induction entries with
  | nil => intro _; rfl
  | cons e rest ih =>
    intro hall
    have he := hall e (by simp)
    have hrest := fun x hx => hall x (List.mem_cons_of_mem e hx)
    rw [Locator.find_library_path_go]
    rcases he with hdir | hname | hm
    · simp only [hdir, if_true, ih hrest]
    · cases hdir2 : e.isDir
      · simp only [Bool.false_eq_true, if_false, hname, Bool.not_false, if_true, ih hrest]
      · simp only [if_true, ih hrest]
    · cases hdir2 : e.isDir
      · cases hname2 : (strStartsWith e.name (l.crate_name ++ "-") && strEndsWith e.name ".d")
        · simp only [Bool.false_eq_true, if_false, Bool.not_false, if_true, ih hrest]
        · simp only [Bool.false_eq_true, if_false, Bool.not_true, hm, ih hrest]
      · simp only [if_true, ih hrest]

/-- Claim C7: if the directory exists but no candidate auxiliary file's
content matches the identity's search patterns, `find_library_path`
returns, after scanning every entry, an error whose message names the
dependency's logical package name. (The operation only inspects the
directory value; it is a pure function of it.) -/
theorem C7_no_match_error (l : Locator) (d : DepsDir)
    (hdir : d.dirExists = true)
    (hall : ∀ e ∈ d.entries, e.isDir = true ∨
      (strStartsWith e.name (l.crate_name ++ "-") && strEndsWith e.name ".d") = false ∨
      l.matches e.content = .ok false) :
    Locator.find_library_path l d
      = .error ("failed to find appropriate path for " ++ l.package_name) := by
  obtain ⟨de, entries, files⟩ := d
  cases hdir
  rw [Locator.find_library_path]
  simp only [Bool.not_true, Bool.false_eq_true, if_false]
  exact find_library_path_go_exhausted l files entries hall

/-- Witness for C7: a directory whose only `.d` candidate for `foo`
records a different version. -/
theorem C7_no_match_error_witness :
    Locator.find_library_path (.Version "foo" "1.0.0")
        ⟨true, [⟨"foo-aaa.d", false, "/registry/src/foo-9.9.9/lib.rs"⟩,
                ⟨"bar.txt", false, ""⟩], []⟩
      = .error ("failed to find appropriate path for "
          ++ (Locator.Version "foo" "1.0.0").package_name) :=
  C7_no_match_error (.Version "foo" "1.0.0") _ rfl (by decide)

/-- Claim C8: when a candidate auxiliary file matches but neither the
`.so` nor the `.rlib` artifact exists for its `lib`-prefixed stem, the
resolver aborts (the `unreachable!`), for every list of further
candidates: it neither returns an error nor falls through to later
entries. -/
theorem C8_missing_artifact_is_abort (l : Locator) (nm content : String)
    (rest : List DirEntry) (files : List String)
    (hpre : strStartsWith nm (l.crate_name ++ "-") = true)
    (hsuf : strEndsWith nm ".d" = true)
    (hm : l.matches content = .ok true)
    (hso : files.contains (withExtension ("lib" ++ nm) "so") = false)
    (hrl : files.contains (withExtension ("lib" ++ nm) "rlib") = false) :
    Locator.find_library_path l ⟨true, ⟨nm, false, content⟩ :: rest, files⟩
      = .panic "The compiled crate must be either .rlib or .so." ∧
    ∀ msg, Locator.find_library_path l ⟨true, ⟨nm, false, content⟩ :: rest, files⟩
      ≠ .error msg := by
  have hfind : Locator.find_library_path l ⟨true, ⟨nm, false, content⟩ :: rest, files⟩
      = .panic "The compiled crate must be either .rlib or .so." := by
    rw [Locator.find_library_path]
    simp only [Bool.not_true, Bool.false_eq_true, if_false]
    rw [Locator.find_library_path_go]
    simp only [hpre, hsuf, hm, hso, hrl, Bool.and_self, Bool.not_true, Bool.false_eq_true,
      if_false]
  exact ⟨hfind, fun msg h => by rw [hfind] at h; cases h⟩

/-- Witness for C8: a matching candidate with no artifact on disk. -/
theorem C8_missing_artifact_is_abort_witness :
    Locator.find_library_path (.Version "foo" "1.0.0")
        ⟨true, [⟨"foo-abc.d", false, "/src/foo-1.0.0/lib.rs"⟩], []⟩
      = .panic "The compiled crate must be either .rlib or .so." :=
  (C8_missing_artifact_is_abort (.Version "foo" "1.0.0") "foo-abc.d" "/src/foo-1.0.0/lib.rs"
      [] [] (by decide) (by decide) (by decide) (by decide) (by decide)).1

/-- `takeBytes n` aborts whenever the character list holds fewer than `n`
bytes of UTF-8. -/
theorem takeBytes_short_panics :
    ∀ (cs : List Char) (n : Nat), String.utf8ByteSize.go cs < n →
      ∃ msg, takeBytes n cs = .panic msg := by
  intro cs
  induction cs with
  | nil =>
    intro n hn
    cases n with
    | zero => exact absurd hn (Nat.not_lt_zero _)
    | succ m => exact ⟨_, rfl⟩
  | cons c cs ih =>
    intro n hn
    have hgo : String.utf8ByteSize.go (c :: cs) = String.utf8ByteSize.go cs + c.utf8Size :=
      rfl
    cases n with
    | zero => exact absurd hn (Nat.not_lt_zero _)
    | succ m =>
      rw [takeBytes]
      by_cases hle : c.utf8Size ≤ m + 1
      · have hlt : String.utf8ByteSize.go cs < m + 1 - c.utf8Size := by
          rw [hgo] at hn; omega
        obtain ⟨msg, hmsg⟩ := ih _ hlt
        rw [if_pos hle, hmsg]
        exact ⟨msg, rfl⟩
      · rw [if_neg hle]
        exact ⟨_, rfl⟩

/-- Claim C10: for a revision identity whose revision is shorter than 7
bytes, the byte slice `revision[0..7]` aborts: `search_patterns` and
`matches` end in a panic, never in `false` and never in a returned
error. -/
theorem C10_short_revision_panics (package_name revision contents : String)
    (h : revision.utf8ByteSize < 7) :
    (∃ msg, Locator.search_patterns (.Git package_name revision) = .panic msg) ∧
    (∃ msg, Locator.matches (.Git package_name revision) contents = .panic msg) ∧
    (∀ b, Locator.matches (.Git package_name revision) contents ≠ .ok b) ∧
    (∀ msg, Locator.matches (.Git package_name revision) contents ≠ .error msg) := by
  obtain ⟨data⟩ := revision
  have hb : String.utf8ByteSize.go data < 7 := h
  obtain ⟨msg, hmsg⟩ := takeBytes_short_panics data 7 hb
  have hslice : byteSlice 7 ⟨data⟩ = .panic msg := by
    rw [byteSlice]
    have : String.toList ⟨data⟩ = data := rfl
    rw [this, hmsg]
  have hsp : Locator.search_patterns (.Git package_name ⟨data⟩) = .panic msg := by
    rw [Locator.search_patterns]
    rw [hslice]
  have hma : Locator.matches (.Git package_name ⟨data⟩) contents = .panic msg := by
    rw [Locator.matches, hsp]
  refine ⟨⟨msg, hsp⟩, ⟨msg, hma⟩, ?_, ?_⟩
  · intro b hb2
    rw [hma] at hb2
    cases hb2
  · intro m hm2
    rw [hma] at hm2
    cases hm2

/-- Witness for C10: a 3-byte revision makes matching abort with the
out-of-bounds panic. -/
theorem C10_short_revision_panics_witness :
    Locator.matches (.Git "mycrate" "abc") "/mycrate/abc/"
      = .panic "byte index out of bounds" := by
  obtain ⟨msg, hmsg⟩ :=
    (C10_short_revision_panics "mycrate" "abc" "/mycrate/abc/" (by decide)).2.1
  have hdec : Locator.matches (.Git "mycrate" "abc") "/mycrate/abc/"
      = .panic "byte index out of bounds" := by decide
  rw [hdec] at hmsg
  rw [hdec, RunResult.panic.inj hmsg]

/-- Witness for C6: a concrete dependency against a missing directory. -/
theorem C6_missing_directory_witness :
    Dependency.parse ⟨false, [], []⟩ ⟨"foo", none, "= 1.0.0"⟩
      = .error "dependencies path is not exist." :=
  (C6_missing_directory ⟨"foo", none, "= 1.0.0"⟩ [] []).1

/-- Witness for C9: a concrete revision reference is accepted. -/
theorem C9_git_reference_kinds_witness :
    Dependency.parse_git "foo" (.Rev "abc123") = .ok (.Git "foo" "abc123") :=
  (C9_git_reference_kinds "foo" "abc123").1
